import Mathlib

/-!
Shallow embedding of the FlintX command-line tool (Rust sources under src/).

Console output is modelled as the list of lines passed to println!, with the
terminal colorization applied by the colored crate elided (it is presentation
only and no claim mentions it). The two fallible file-system calls in
src/commands/init.rs are modelled through an oracle `env : FsOp → Bool`
telling whether each attempted operation succeeds; a failed expect is
recorded as an abort message, mirroring the process-aborting panic.
-/

namespace FlintX

/-- A file-system operation attempted by the program. The only two such
operations in the source are fs::create_dir_all and fs::write in
src/commands/init.rs lines 16-17. -/
inductive FsOp where
  | createDirAll (path : String)
  | writeFile (path : String) (contents : String)
deriving DecidableEq

/-- Observable result of one program run: the console lines printed, the
file-system operations successfully performed (in order), and the panic
message when the process aborted via expect (none when it returned
normally). -/
structure ExecResult where
  lines : List String
  fsOps : List FsOp
  abortMsg : Option String
deriving DecidableEq

/-- A file system: which directories exist and the contents of each file.
Used to interpret the operations a run performs. -/
structure FileSystem where
  dirs : String → Bool
  files : String → Option String

/-- Effect of one file-system operation on a file system: create_dir_all
makes the directory exist (a no-op when it already does), fs::write creates
the file or truncates and overwrites an existing one. -/
def FsOp.apply (fs : FileSystem) : FsOp → FileSystem
  | FsOp.createDirAll p => { fs with dirs := Function.update fs.dirs p true }
  | FsOp.writeFile p c => { fs with files := Function.update fs.files p (some c) }

/-- Interpret a list of performed operations, left to right. -/
def applyOps (fs : FileSystem) (ops : List FsOp) : FileSystem :=
  ops.foldl FsOp.apply fs

/-- The empty file system: no directories, no files. -/
def emptyFS : FileSystem :=
  { dirs := fun _ => false, files := fun _ => none }

namespace analyze

/-- src/commands/analyze.rs execute: prints five lines and returns. -/
def execute (target : String) : List String :=
  [ "[ ANALYZE ] Running static analysis...",
    "  Target: " ++ target,
    "",
    "  → Static analysis engine not yet connected.",
    "  → Phase 3 will wire the Python AST analyzer here." ]

end analyze

namespace profile

/-- src/commands/profile.rs execute: prints five lines and returns. -/
def execute (target : String) : List String :=
  [ "[ PROFILE ] Running runtime profiler...",
    "  Target: " ++ target,
    "",
    "  → Runtime profiler not yet connected.",
    "  → Phase 4 will wire cProfile + psutil here." ]

end profile

namespace optimize

/-- src/commands/optimize.rs execute: prints a header, one line depending on
whether the optional input was given, then three fixed lines. -/
def execute (input : Option String) : List String :=
  [ "[ OPTIMIZE ] Querying AI optimization layer...",
    match input with
    | some path => "  Input file: " ++ path
    | none => "  Input: auto (from last run)",
    "",
    "  → AI layer not yet connected.",
    "  → Phase 5 will wire FastAPI + Ollama here." ]

end optimize

namespace run

/-- src/commands/run.rs execute: prints ten lines and returns. -/
def execute (target : String) : List String :=
  [ "[ RUN ] Executing full Flint-X pipeline...",
    "  Target: " ++ target,
    "",
    "  Pipeline steps:",
    "    1. Static Analysis",
    "    2. Runtime Profiling",
    "    3. AI Optimization Query",
    "",
    "  → Full pipeline not yet connected.",
    "  → Phase 6 will wire all stages together here." ]

end run

namespace init

/-- The JSON text written verbatim to flintx.config.json by init
(the raw string literal in src/commands/init.rs lines 7-14). -/
def config : String :=
  "\x7b\n  \"version\": \"0.1.0\",\n  \"project\": \"flintx-project\",\n  \"ai_endpoint\": \"http://localhost:8000/analyze\",\n  \"ollama_model\": \"mistral\",\n  \"output_dir\": \"./flintx_output\"\n\x7d\n"

/-- src/commands/init.rs execute: prints a header, creates the output
directory, writes the config file — each through the success oracle, a
failed expect aborting the run — then prints the four success lines. -/
def execute (env : FsOp → Bool) : ExecResult :=
  let header := "[ INIT ] Initializing Flint-X project..."
  let dirOp := FsOp.createDirAll "flintx_output"
  let fileOp := FsOp.writeFile "flintx.config.json" config
  if env dirOp then
    if env fileOp then
      { lines :=
          [ header,
            "  ✔ Created flintx.config.json",
            "  ✔ Created flintx_output/ directory",
            "",
            "  Flint-X project ready.",
            "  Edit flintx.config.json to configure your AI endpoint and model." ],
        fsOps := [dirOp, fileOp],
        abortMsg := none }
    else
      { lines := [header],
        fsOps := [dirOp],
        abortMsg := some "Failed to write config file" }
  else
    { lines := [header],
      fsOps := [],
      abortMsg := some "Failed to create output directory" }

end init

/-- The five subcommands with their parsed arguments, mirroring the
Commands enum of src/main.rs. -/
inductive Commands where
  | init
  | analyze (target : String)
  | profile (target : String)
  | optimize (input : Option String)
  | run (target : String)
deriving DecidableEq

/-- The banner printed by print_banner in src/main.rs lines 65-72,
followed by the empty println. -/
def print_banner : List String :=
  [ "╔══════════════════════════════════════╗",
    "║        Flint-X v0.1.0                ║",
    "║  AI Performance Intelligence Tool    ║",
    "║  AMD Hardware-Aware Optimization     ║",
    "╚══════════════════════════════════════╝",
    "" ]

/-- src/main.rs main: prints the banner, then dispatches the parsed
subcommand. `env` is the file-system success oracle; `envVars` models the
process environment variables — no line of the source reads one, so the
body never consults it. -/
def main (cmd : Commands) (env : FsOp → Bool)
    (envVars : String → Option String) : ExecResult :=
  match cmd with
  | Commands.init =>
      let r := init.execute env
      { r with lines := print_banner ++ r.lines }
  | Commands.analyze t =>
      { lines := print_banner ++ analyze.execute t, fsOps := [], abortMsg := none }
  | Commands.profile t =>
      { lines := print_banner ++ profile.execute t, fsOps := [], abortMsg := none }
  | Commands.optimize i =>
      { lines := print_banner ++ optimize.execute i, fsOps := [], abortMsg := none }
  | Commands.run t =>
      { lines := print_banner ++ run.execute t, fsOps := [], abortMsg := none }

/-- Rendering, following the spec wording, of a JSON object holding exactly
the given string-valued fields in order, in the two-space indented style:
the comparison target for the configuration template of init. -/
def jsonObjectOfStringFields (fields : List (String × String)) : String :=
  "\x7b\n"
    ++ String.intercalate ",\n"
        (fields.map (fun f => "  \"" ++ f.1 ++ "\": \"" ++ f.2 ++ "\""))
    ++ "\n\x7d\n"

/-- Claim C1: init writes flintx.config.json whose content is the JSON
object with exactly the five fields version, project, ai_endpoint,
ollama_model, output_dir at their fixed values, and creates the
flintx_output directory alongside it. -/
theorem init_config_exact :
    init.config =
      jsonObjectOfStringFields
        [ ("version", "0.1.0"),
          ("project", "flintx-project"),
          ("ai_endpoint", "http://localhost:8000/analyze"),
          ("ollama_model", "mistral"),
          ("output_dir", "./flintx_output") ] ∧
    (init.execute (fun _ => true)).fsOps =
      [ FsOp.createDirAll "flintx_output",
        FsOp.writeFile "flintx.config.json" init.config ] :=
  ⟨rfl, rfl⟩

/-- Claim C2: for every target string, each of analyze, profile and run
prints the banner, its header line, a line echoing the target and its
placeholder lines, performs no file-system operation and never aborts,
whatever the state of the disk (the oracle `env` is arbitrary): no
validation of the target path occurs. -/
theorem analyze_profile_run_total (t : String) (env : FsOp → Bool)
    (envVars : String → Option String) :
    FlintX.main (Commands.analyze t) env envVars =
      { lines := print_banner ++
          [ "[ ANALYZE ] Running static analysis...",
            "  Target: " ++ t,
            "",
            "  → Static analysis engine not yet connected.",
            "  → Phase 3 will wire the Python AST analyzer here." ],
        fsOps := [], abortMsg := none } ∧
    FlintX.main (Commands.profile t) env envVars =
      { lines := print_banner ++
          [ "[ PROFILE ] Running runtime profiler...",
            "  Target: " ++ t,
            "",
            "  → Runtime profiler not yet connected.",
            "  → Phase 4 will wire cProfile + psutil here." ],
        fsOps := [], abortMsg := none } ∧
    FlintX.main (Commands.run t) env envVars =
      { lines := print_banner ++
          [ "[ RUN ] Executing full Flint-X pipeline...",
            "  Target: " ++ t,
            "",
            "  Pipeline steps:",
            "    1. Static Analysis",
            "    2. Runtime Profiling",
            "    3. AI Optimization Query",
            "",
            "  → Full pipeline not yet connected.",
            "  → Phase 6 will wire all stages together here." ],
        fsOps := [], abortMsg := none } :=
  ⟨rfl, rfl, rfl⟩

/-- Claim C3: a run aborts exactly when the command is init and one of its
two file-system operations fails (directory creation, or directory creation
succeeded and the config write failed); none of the other four subcommands
can abort, for any oracle. -/
theorem only_init_aborts (cmd : Commands) (env : FsOp → Bool)
    (envVars : String → Option String) :
    (FlintX.main cmd env envVars).abortMsg ≠ none ↔
      cmd = Commands.init ∧
        (env (FsOp.createDirAll "flintx_output") = false ∨
         env (FsOp.writeFile "flintx.config.json" init.config) = false) := by
  cases cmd with
  | init =>
      cases h1 : env (FsOp.createDirAll "flintx_output") with
      | false => simp [FlintX.main, init.execute, h1]
      | true =>
          cases h2 : env (FsOp.writeFile "flintx.config.json" init.config) with
          | false => simp [FlintX.main, init.execute, h1, h2]
          | true => simp [FlintX.main, init.execute, h1, h2]
  | analyze t => simp [FlintX.main]
  | profile t => simp [FlintX.main]
  | optimize i => simp [FlintX.main]
  | run t => simp [FlintX.main]

/-- Witness for only_init_aborts at a concrete command and oracle. -/
theorem only_init_aborts_check :
    (FlintX.main Commands.init (fun _ => false) (fun _ => none)).abortMsg ≠ none ↔
      Commands.init = Commands.init ∧
        ((fun _ => false : FsOp → Bool) (FsOp.createDirAll "flintx_output") = false ∨
         (fun _ => false : FsOp → Bool)
           (FsOp.writeFile "flintx.config.json" init.config) = false) :=
  only_init_aborts Commands.init (fun _ => false) (fun _ => none)

/-- Claim C4 as stated is false: the run subcommand prints ten lines,
more than the claimed maximum of six. -/
theorem run_prints_more_than_six_lines :
    ¬ (run.execute "x").length ≤ 6 := by decide

/-- Claim C4 amended: each subcommand prints a bounded number of lines and
returns — init 6 (when both file-system operations succeed), analyze 5,
profile 5, optimize 5, run 10 — i.e. between 3 and 10 lines. -/
theorem subcommand_line_counts (t : String) (inp : Option String)
    (env : FsOp → Bool) (h : ∀ op, env op = true) :
    (init.execute env).lines.length = 6 ∧
    (analyze.execute t).length = 5 ∧
    (profile.execute t).length = 5 ∧
    (optimize.execute inp).length = 5 ∧
    (run.execute t).length = 10 := by
  refine ⟨?_, rfl, rfl, ?_, rfl⟩
  · simp [init.execute, h]
  · cases inp <;> rfl

/-- Witness for subcommand_line_counts at a concrete target, input and
all-success oracle. -/
theorem subcommand_line_counts_check :
    (init.execute (fun _ => true)).lines.length = 6 ∧
    (analyze.execute "a").length = 5 ∧
    (profile.execute "a").length = 5 ∧
    (optimize.execute none).length = 5 ∧
    (run.execute "a").length = 10 :=
  subcommand_line_counts "a" none (fun _ => true) (fun _ => rfl)

/-- Claim C5 as stated is false: the printed text is not constant across
argument values — analyze output for target a differs from that for
target b. -/
theorem analyze_output_not_constant :
    analyze.execute "a" ≠ analyze.execute "b" := by decide

/-- Claim C5 amended: only the line at index 1 — the one echoing the
target (or input) argument — varies; for each of analyze, profile, run and
optimize, any two argument values give outputs of equal length that agree
on the first line and on every line from index 2 on. init takes no
argument, so its output cannot depend on one. -/
theorem output_fixed_apart_from_echo (t₁ t₂ : String) (i₁ i₂ : Option String) :
    (analyze.execute t₁).take 1 = (analyze.execute t₂).take 1 ∧
    (analyze.execute t₁).drop 2 = (analyze.execute t₂).drop 2 ∧
    (analyze.execute t₁).length = (analyze.execute t₂).length ∧
    (profile.execute t₁).take 1 = (profile.execute t₂).take 1 ∧
    (profile.execute t₁).drop 2 = (profile.execute t₂).drop 2 ∧
    (profile.execute t₁).length = (profile.execute t₂).length ∧
    (run.execute t₁).take 1 = (run.execute t₂).take 1 ∧
    (run.execute t₁).drop 2 = (run.execute t₂).drop 2 ∧
    (run.execute t₁).length = (run.execute t₂).length ∧
    (optimize.execute i₁).take 1 = (optimize.execute i₂).take 1 ∧
    (optimize.execute i₁).drop 2 = (optimize.execute i₂).drop 2 ∧
    (optimize.execute i₁).length = (optimize.execute i₂).length :=
  ⟨rfl, rfl, rfl, rfl, rfl, rfl, rfl, rfl, rfl, rfl, rfl, rfl⟩

/-- Claim C6: the program reads no environment variable — for any two
process environments and the same parsed command and disk oracle, the
observable result (lines, file-system operations, abort status) is
identical. -/
theorem no_env_var_dependence (cmd : Commands) (env : FsOp → Bool)
    (v₁ v₂ : String → Option String) :
    FlintX.main cmd env v₁ = FlintX.main cmd env v₂ := rfl

/-- Claim C7: only init touches the file system — analyze, profile,
optimize and run perform no file-system operation and leave any file
system unchanged, while init (when its operations succeed) performs
exactly one directory creation followed by one file write. -/
theorem only_init_touches_fs (t : String) (inp : Option String)
    (env : FsOp → Bool) (envVars : String → Option String) (fs : FileSystem)
    (h : ∀ op, env op = true) :
    (FlintX.main (Commands.analyze t) env envVars).fsOps = [] ∧
    (FlintX.main (Commands.profile t) env envVars).fsOps = [] ∧
    (FlintX.main (Commands.optimize inp) env envVars).fsOps = [] ∧
    (FlintX.main (Commands.run t) env envVars).fsOps = [] ∧
    applyOps fs (FlintX.main (Commands.analyze t) env envVars).fsOps = fs ∧
    applyOps fs (FlintX.main (Commands.profile t) env envVars).fsOps = fs ∧
    applyOps fs (FlintX.main (Commands.optimize inp) env envVars).fsOps = fs ∧
    applyOps fs (FlintX.main (Commands.run t) env envVars).fsOps = fs ∧
    (FlintX.main Commands.init env envVars).fsOps =
      [ FsOp.createDirAll "flintx_output",
        FsOp.writeFile "flintx.config.json" init.config ] := by
  refine ⟨rfl, rfl, rfl, rfl, rfl, rfl, rfl, rfl, ?_⟩
  simp [FlintX.main, init.execute, h]

/-- Witness for only_init_touches_fs at a concrete target, input,
all-success oracle, environment and file system. -/
theorem only_init_touches_fs_check :
    (FlintX.main (Commands.analyze "a") (fun _ => true) (fun _ => none)).fsOps = [] ∧
    (FlintX.main (Commands.profile "a") (fun _ => true) (fun _ => none)).fsOps = [] ∧
    (FlintX.main (Commands.optimize none) (fun _ => true) (fun _ => none)).fsOps = [] ∧
    (FlintX.main (Commands.run "a") (fun _ => true) (fun _ => none)).fsOps = [] ∧
    applyOps emptyFS
      (FlintX.main (Commands.analyze "a") (fun _ => true) (fun _ => none)).fsOps = emptyFS ∧
    applyOps emptyFS
      (FlintX.main (Commands.profile "a") (fun _ => true) (fun _ => none)).fsOps = emptyFS ∧
    applyOps emptyFS
      (FlintX.main (Commands.optimize none) (fun _ => true) (fun _ => none)).fsOps = emptyFS ∧
    applyOps emptyFS
      (FlintX.main (Commands.run "a") (fun _ => true) (fun _ => none)).fsOps = emptyFS ∧
    (FlintX.main Commands.init (fun _ => true) (fun _ => none)).fsOps =
      [ FsOp.createDirAll "flintx_output",
        FsOp.writeFile "flintx.config.json" init.config ] :=
  only_init_touches_fs "a" none (fun _ => true) (fun _ => none) emptyFS (fun _ => rfl)

/-- Claim C8: init is not atomic on error — when directory creation
succeeds and the config write fails, the run aborts with the write failure
message having performed the directory creation only, so the resulting
file system has the flintx_output directory, the config file untouched,
and (when the directory was absent) differs from the initial one. -/
theorem init_dir_persists_on_write_failure (env : FsOp → Bool) (fs : FileSystem)
    (h1 : env (FsOp.createDirAll "flintx_output") = true)
    (h2 : env (FsOp.writeFile "flintx.config.json" init.config) = false)
    (h3 : fs.dirs "flintx_output" = false) :
    (init.execute env).abortMsg = some "Failed to write config file" ∧
    (init.execute env).fsOps = [FsOp.createDirAll "flintx_output"] ∧
    (applyOps fs (init.execute env).fsOps).dirs "flintx_output" = true ∧
    (applyOps fs (init.execute env).fsOps).files "flintx.config.json" =
      fs.files "flintx.config.json" ∧
    applyOps fs (init.execute env).fsOps ≠ fs := by
  have e1 : init.execute env =
      { lines := ["[ INIT ] Initializing Flint-X project..."],
        fsOps := [FsOp.createDirAll "flintx_output"],
        abortMsg := some "Failed to write config file" } := by
    simp [init.execute, h1, h2]
  have hdir : (applyOps fs (init.execute env).fsOps).dirs "flintx_output" = true := by
    simp [e1, applyOps, FsOp.apply]
  refine ⟨by simp [e1], by simp [e1], hdir, by simp [e1, applyOps, FsOp.apply], ?_⟩
  intro hEq
  rw [hEq, h3] at hdir
  exact Bool.false_ne_true hdir

/-- Witness for init_dir_persists_on_write_failure at the oracle that
fails exactly the file write and the empty file system. -/
theorem init_dir_persists_on_write_failure_check :
    (init.execute
        (fun op => match op with
          | FsOp.createDirAll _ => true
          | FsOp.writeFile _ _ => false)).abortMsg =
      some "Failed to write config file" ∧
    (init.execute
        (fun op => match op with
          | FsOp.createDirAll _ => true
          | FsOp.writeFile _ _ => false)).fsOps =
      [FsOp.createDirAll "flintx_output"] ∧
    (applyOps emptyFS
        (init.execute
          (fun op => match op with
            | FsOp.createDirAll _ => true
            | FsOp.writeFile _ _ => false)).fsOps).dirs "flintx_output" = true ∧
    (applyOps emptyFS
        (init.execute
          (fun op => match op with
            | FsOp.createDirAll _ => true
            | FsOp.writeFile _ _ => false)).fsOps).files "flintx.config.json" =
      emptyFS.files "flintx.config.json" ∧
    applyOps emptyFS
        (init.execute
          (fun op => match op with
            | FsOp.createDirAll _ => true
            | FsOp.writeFile _ _ => false)).fsOps ≠ emptyFS :=
  init_dir_persists_on_write_failure
    (fun op => match op with
      | FsOp.createDirAll _ => true
      | FsOp.writeFile _ _ => false)
    emptyFS rfl rfl rfl

/-- Claim C9: init is idempotent on file-system state — with a succeeding
oracle a run of init returns normally, and interpreting its operations a
second time from the state a first run produced changes nothing: the
directory creation finds the directory already present and the write
overwrites the config file with identical content. -/
theorem init_idempotent (env : FsOp → Bool) (fs : FileSystem)
    (h : ∀ op, env op = true) :
    (init.execute env).abortMsg = none ∧
    applyOps (applyOps fs (init.execute env).fsOps) (init.execute env).fsOps =
      applyOps fs (init.execute env).fsOps := by
  have e1 : (init.execute env).fsOps =
      [ FsOp.createDirAll "flintx_output",
        FsOp.writeFile "flintx.config.json" init.config ] := by
    simp [init.execute, h]
  refine ⟨by simp [init.execute, h], ?_⟩
  rw [e1]
  simp [applyOps, FsOp.apply, Function.update_idem]

/-- Witness for init_idempotent at the all-success oracle and the empty
file system. -/
theorem init_idempotent_check :
    (init.execute (fun _ => true)).abortMsg = none ∧
    applyOps (applyOps emptyFS (init.execute (fun _ => true)).fsOps)
        (init.execute (fun _ => true)).fsOps =
      applyOps emptyFS (init.execute (fun _ => true)).fsOps :=
  init_idempotent (fun _ => true) emptyFS (fun _ => rfl)

/-- Claim C10: optimize without an input does not fail — it prints the
fallback line at index 1 and is otherwise identical to a run given an
input path, which echoes that path there instead. -/
theorem optimize_defaults_without_input (p : String) (env : FsOp → Bool)
    (envVars : String → Option String) :
    optimize.execute none =
      [ "[ OPTIMIZE ] Querying AI optimization layer...",
        "  Input: auto (from last run)",
        "",
        "  → AI layer not yet connected.",
        "  → Phase 5 will wire FastAPI + Ollama here." ] ∧
    optimize.execute (some p) =
      [ "[ OPTIMIZE ] Querying AI optimization layer...",
        "  Input file: " ++ p,
        "",
        "  → AI layer not yet connected.",
        "  → Phase 5 will wire FastAPI + Ollama here." ] ∧
    (FlintX.main (Commands.optimize none) env envVars).abortMsg = none ∧
    (FlintX.main (Commands.optimize (some p)) env envVars).abortMsg = none :=
  ⟨rfl, rfl, rfl, rfl⟩

end FlintX
